import Mathlib

/-! Verification of the ticket-triage decision core of an AI customer-support
backend. The Python sources are shallowly embedded: enum classes become
inductive types, float scores become rationals (every comparison the policies
make is an order comparison of decimal literals, which the rationals model
exactly), the pydantic `Settings` object becomes a structure of the fields the
decision core reads, and fallible collaborator calls (LLM classification and
reply generation) become `Except`-valued function parameters. -/

namespace SupportTriage

/-- Customer intent categories (`app/models/ticket.py`, class `IntentType`). -/
inductive IntentType
  | billing
  | technical_issue
  | account_access
  | cancellation
  | feature_request
  | general_inquiry
deriving DecidableEq, Fintype

/-- Ticket urgency levels (`app/models/ticket.py`, class `UrgencyLevel`). -/
inductive UrgencyLevel
  | low
  | medium
  | high
  | critical
deriving DecidableEq, Fintype

/-- Ticket processing status (`app/models/ticket.py`, class `TicketStatus`). -/
inductive TicketStatus
  | pending_review
  | approved
  | sent
  | escalated
  | closed
deriving DecidableEq

/-- The `.value` of the `str`-valued `IntentType` enum. -/
def IntentType.value : IntentType → String
  | .billing => "billing"
  | .technical_issue => "technical_issue"
  | .account_access => "account_access"
  | .cancellation => "cancellation"
  | .feature_request => "feature_request"
  | .general_inquiry => "general_inquiry"

/-- The `.value` of the `str`-valued `UrgencyLevel` enum. -/
def UrgencyLevel.value : UrgencyLevel → String
  | .low => "low"
  | .medium => "medium"
  | .high => "high"
  | .critical => "critical"

/-- The fields of `app/config.py`, class `Settings`, that the decision core and
the SLA design read, with their declared defaults. -/
structure Settings where
  auto_send_threshold : ℚ := 4/5
  escalation_threshold : ℚ := 3/5
  sla_low : Int := 48
  sla_medium : Int := 24
  sla_high : Int := 8
  sla_critical : Int := 2
deriving DecidableEq

/-- `settings = Settings()` of `app/config.py`: the default configuration. -/
def settings : Settings := {}

/-- `RouterService.INTENT_TEAM_MAP` (`app/services/router.py`): the intent to
team dictionary, as a partial map the way a Python dict is consulted. -/
def INTENT_TEAM_MAP : IntentType → Option String
  | .billing => some "Finance Team"
  | .technical_issue => some "Tech Support"
  | .account_access => some "Account Services"
  | .cancellation => some "Retention Team"
  | .feature_request => some "Product Team"
  | .general_inquiry => some "General Support"

/-- `RouterService.SLA_HOURS` (`app/services/router.py`): the class-level SLA
dictionary with its hardcoded hour literals. -/
def SLA_HOURS : UrgencyLevel → Option Int
  | .low => some 48
  | .medium => some 24
  | .high => some 8
  | .critical => some 2

/-- `RouterService.route_ticket`: team lookup with dict-default
"General Support", and the " - ESCALATED" suffix for critical urgency. -/
def route_ticket (intent : IntentType) (urgency : UrgencyLevel) : String :=
  let team := (INTENT_TEAM_MAP intent).getD "General Support"
  if urgency = .critical then team ++ " - ESCALATED" else team

/-- `RouterService.get_sla_hours`: `self.SLA_HOURS.get(urgency, 24)`. The
method reads only the class-level dictionary; it takes no configuration. -/
def get_sla_hours (urgency : UrgencyLevel) : Int :=
  (SLA_HOURS urgency).getD 24

/-- `RouterService.should_auto_send`: never for high or critical urgency,
otherwise exactly when `confidence >= settings.auto_send_threshold`. The
configuration the Python reads from the module-global `settings` is passed
explicitly. -/
def should_auto_send (s : Settings) (confidence : ℚ) (urgency : UrgencyLevel) : Bool :=
  if urgency = .critical ∨ urgency = .high then false
  else if s.auto_send_threshold ≤ confidence then true
  else false

/-- `RouterService.should_escalate`: always for critical urgency, otherwise
exactly when `confidence < settings.escalation_threshold`. -/
def should_escalate (s : Settings) (confidence : ℚ) (urgency : UrgencyLevel) : Bool :=
  if urgency = .critical then true
  else if confidence < s.escalation_threshold then true
  else false

/-- Clamping a score to [0.0, 1.0], as the spec's defensive-clamping
requirement words it; for comparison with the policies, which compare the raw
score. -/
def clamp01 (c : ℚ) : ℚ := max 0 (min 1 c)

/-- The SLA lookup as spec section 4.4 words it, for comparison with
`get_sla_hours`: the lookup reads the externally configured table. -/
def sla_hours_spec (s : Settings) : UrgencyLevel → Int
  | .low => s.sla_low
  | .medium => s.sla_medium
  | .high => s.sla_high
  | .critical => s.sla_critical

/-- The phrase blacklist of `ReplyGeneratorService._calculate_confidence`
(source name: unsafe_phrases). -/
def unsafe_phrases : List String :=
  ["refund", "guarantee", "promise", "will fix",
   "by tomorrow", "compensation", "credit"]

/-- Python's `phrase.lower() in reply.lower()`: case-insensitive substring
test. -/
def containsPhrase (reply phrase : String) : Bool :=
  decide (phrase.toLower.data <:+: reply.toLower.data)

/-- `ReplyGeneratorService._calculate_confidence`: base 0.85, minus 0.2 for a
reply under 50 characters, minus 0.15 per blacklisted phrase found, minus 0.1
for critical urgency, clamped to [0.0, 1.0]. -/
def _calculate_confidence (reply : String) (intent : String) (urgency : String) : ℚ :=
  let confidence : ℚ := 85/100
  let confidence := if reply.length < 50 then confidence - 2/10 else confidence
  let confidence := unsafe_phrases.foldl
    (fun c phrase => if containsPhrase reply phrase then c - 15/100 else c) confidence
  let confidence := if urgency = "critical" then confidence - 1/10 else confidence
  max 0 (min 1 confidence)

/-- An email fetched by the Gmail collaborator (`schemas.TicketCreate` /
`gmail_service.fetch_unread_emails` items). -/
structure TicketData where
  source : String := "gmail"
  customer_email : String
  subject : String
  body : String
deriving DecidableEq

/-- `schemas.ClassificationResult`. -/
structure ClassificationResult where
  intent : IntentType
  urgency : UrgencyLevel
  confidence : ℚ
  reasoning : Option String := none
deriving DecidableEq

/-- `schemas.ReplyResult`. -/
structure ReplyResult where
  reply : String
  confidence : ℚ
deriving DecidableEq

/-- The persisted `models.Ticket` row, restricted to the fields the ingestion
and escalation endpoints read or write. -/
structure Ticket where
  source : String
  customer_email : String
  subject : String
  body : String
  intent : Option IntentType := none
  urgency : Option UrgencyLevel := none
  confidence_score : Option ℚ := none
  ai_reply : Option String := none
  final_reply : Option String := none
  assigned_team : Option String := none
  status : TicketStatus
  feedback : Option String := none
  feedback_rating : Option Int := none
deriving DecidableEq

/-- Whether an `Except`-valued collaborator call raised. -/
def exceptFailed {ε α : Type} : Except ε α → Bool
  | .error _ => true
  | .ok _ => false

/-- The body of the per-ticket loop of `ingest_tickets`
(`app/api/tickets.py`, lines 92-145): create the row pending review, then
inside `try` classify, generate the reply, overwrite the confidence with
`min(classification.confidence, reply_result.confidence)`, route, and mark
escalated when `should_escalate` fires; any exception from the collaborators
is caught and the row is marked escalated with the fields written so far. -/
def ingest_process_one (s : Settings)
    (classify : String → String → Except String ClassificationResult)
    (genReply : String → String → String → String → Except String ReplyResult)
    (td : TicketData) : Ticket :=
  let t0 : Ticket :=
    { source := td.source, customer_email := td.customer_email,
      subject := td.subject, body := td.body, status := .pending_review }
  match classify td.subject td.body with
  | .error _ => { t0 with status := .escalated }
  | .ok classification =>
    let t1 := { t0 with intent := some classification.intent,
                        urgency := some classification.urgency,
                        confidence_score := some classification.confidence }
    match genReply td.subject td.body
        classification.intent.value classification.urgency.value with
    | .error _ => { t1 with status := .escalated }
    | .ok reply_result =>
      let effective := min classification.confidence reply_result.confidence
      let t2 := { t1 with
        ai_reply := some reply_result.reply,
        confidence_score := some effective,
        assigned_team :=
          some (route_ticket classification.intent classification.urgency) }
      if should_escalate s effective classification.urgency then
        { t2 with status := .escalated }
      else t2

/-- `ingest_tickets` (`app/api/tickets.py`): every fetched email is processed
by the per-ticket loop body and added to the session; the batch is one commit
and the endpoint reports `processed_count` tickets. -/
def ingest_tickets (s : Settings)
    (classify : String → String → Except String ClassificationResult)
    (genReply : String → String → String → String → Except String ReplyResult)
    (tds : List TicketData) : List Ticket :=
  tds.map (ingest_process_one s classify genReply)

/-- Whether the fallible per-ticket steps of `ingest_process_one` raise for a
given email: classification raises, or classification succeeds and reply
generation raises on its output. -/
def step_fails
    (classify : String → String → Except String ClassificationResult)
    (genReply : String → String → String → String → Except String ReplyResult)
    (td : TicketData) : Bool :=
  match classify td.subject td.body with
  | .error _ => true
  | .ok c => exceptFailed (genReply td.subject td.body c.intent.value c.urgency.value)

/-- Python's f-string rendering of the nullable `assigned_team` column:
`f"{ticket.assigned_team}"` prints `None` for a missing team. -/
def formatOptTeam : Option String → String
  | some s => s
  | none => "None"

/-- The `escalate_ticket` endpoint (`app/api/tickets.py`, lines 235-250): set
the status to ESCALATED and overwrite `assigned_team` with
`f"{ticket.assigned_team} - ESCALATED"`, unconditionally. -/
def escalate_ticket (t : Ticket) : Ticket :=
  { t with status := .escalated,
           assigned_team := some (formatOptTeam t.assigned_team ++ " - ESCALATED") }

/-- The verdict bundle of spec section 4.5. -/
structure Verdict where
  team : String
  escalate : Bool
  auto_send : Bool
deriving DecidableEq

/-- The Decision Engine `decide` of spec section 4.5, stated from the spec's
words for comparison with the ingestion code: effective confidence is the
minimum of the two upstream confidences, and the verdict bundles the team,
the escalate flag and the auto-send flag. -/
def decide_spec (s : Settings) (intent : IntentType) (urgency : UrgencyLevel)
    (cls_confidence reply_confidence : ℚ) : Verdict :=
  let effective := min cls_confidence reply_confidence
  { team := route_ticket intent urgency,
    escalate := should_escalate s effective urgency,
    auto_send := should_auto_send s effective urgency }

/-! ## Theorems -/

/-- C2: for every configured threshold and every confidence, should_auto_send
is false for high and critical urgency; for low and medium it is true exactly
when the confidence is at least the auto-send threshold, the boundary being
inclusive (a confidence equal to the threshold auto-sends, one strictly below
does not). -/
theorem should_auto_send_spec (s : Settings) (confidence : ℚ) :
    should_auto_send s confidence .high = false ∧
    should_auto_send s confidence .critical = false ∧
    should_auto_send s confidence .low = decide (s.auto_send_threshold ≤ confidence) ∧
    should_auto_send s confidence .medium = decide (s.auto_send_threshold ≤ confidence) ∧
    should_auto_send s s.auto_send_threshold .low = true ∧
    (confidence < s.auto_send_threshold → should_auto_send s confidence .low = false) := by
  refine ⟨by simp [should_auto_send], by simp [should_auto_send], ?_, ?_, ?_, ?_⟩
  · by_cases h : s.auto_send_threshold ≤ confidence <;> simp [should_auto_send, h]
  · by_cases h : s.auto_send_threshold ≤ confidence <;> simp [should_auto_send, h]
  · simp [should_auto_send]
  · intro h
    simp [should_auto_send, not_le.mpr h]

/-- C3: for every configured threshold and every confidence, should_escalate
is true for critical urgency regardless of confidence; for every other urgency
it is true exactly when the confidence is strictly below the escalation
threshold, so a confidence equal to the threshold does not escalate. -/
theorem should_escalate_spec (s : Settings) (confidence : ℚ) :
    should_escalate s confidence .critical = true ∧
    should_escalate s confidence .low = decide (confidence < s.escalation_threshold) ∧
    should_escalate s confidence .medium = decide (confidence < s.escalation_threshold) ∧
    should_escalate s confidence .high = decide (confidence < s.escalation_threshold) ∧
    should_escalate s s.escalation_threshold .medium = false := by
  refine ⟨by simp [should_escalate], ?_, ?_, ?_, ?_⟩
  · by_cases h : confidence < s.escalation_threshold <;> simp [should_escalate, h]
  · by_cases h : confidence < s.escalation_threshold <;> simp [should_escalate, h]
  · by_cases h : confidence < s.escalation_threshold <;> simp [should_escalate, h]
  · simp [should_escalate]

/-- C4: for every intent and urgency, route_ticket returns the team the
intent-team map assigns (the map is total over the closed enum, so the
"General Support" dict default never fires but cannot crash), with the literal
" - ESCALATED" suffix exactly when urgency is critical and the team string
unmodified for every other urgency. -/
theorem route_ticket_spec (intent : IntentType) (urgency : UrgencyLevel) :
    route_ticket intent urgency =
      (if urgency = .critical
       then (INTENT_TEAM_MAP intent).getD "General Support" ++ " - ESCALATED"
       else (INTENT_TEAM_MAP intent).getD "General Support") ∧
    (INTENT_TEAM_MAP intent).isSome = true ∧
    ((" - ESCALATED").data.isSuffixOf (route_ticket intent urgency).data
      = decide (urgency = .critical)) := by
  cases intent <;> cases urgency <;> exact ⟨rfl, rfl, by decide⟩

/-- C5: with the configured default thresholds (auto-send 0.8, escalation
0.6), no confidence and urgency make should_auto_send and should_escalate
both true. -/
theorem auto_send_escalate_mutually_exclusive (confidence : ℚ) (urgency : UrgencyLevel) :
    (should_auto_send settings confidence urgency &&
     should_escalate settings confidence urgency) = false := by
  cases urgency <;>
    simp [should_auto_send, should_escalate, settings] <;>
    intro h <;> linarith

/-- C6: get_sla_hours answers from the hardcoded class-level SLA_HOURS
dictionary (48/24/8/2), not from the configured sla_low/sla_medium/sla_high/
sla_critical settings: under a configuration with sla_low = 100 the code still
returns 48 where the spec's configurable lookup returns 100. -/
theorem get_sla_hours_ignores_configuration :
    get_sla_hours .low = 48 ∧
    sla_hours_spec { settings with sla_low := 100 } .low = 100 ∧
    get_sla_hours .low ≠ sla_hours_spec { settings with sla_low := 100 } .low ∧
    get_sla_hours .medium = 24 ∧
    get_sla_hours .high = 8 ∧
    get_sla_hours .critical = 2 := by
  refine ⟨rfl, rfl, by decide, rfl, rfl, rfl⟩

/-- For a threshold inside (0, 1], a raw score reaches the threshold exactly
when its clamped value does. -/
lemma le_clamp01_iff (c t : ℚ) (h0 : 0 < t) (h1 : t ≤ 1) :
    t ≤ clamp01 c ↔ t ≤ c := by
  simp only [clamp01, le_max_iff, le_min_iff]
  constructor
  · rintro (h | ⟨h2, h3⟩)
    · linarith
    · exact h3
  · intro h
    exact Or.inr ⟨h1, h⟩

/-- For a threshold inside (0, 1], a raw score is below the threshold exactly
when its clamped value is. -/
lemma clamp01_lt_iff (c t : ℚ) (h0 : 0 < t) (h1 : t ≤ 1) :
    clamp01 c < t ↔ c < t := by
  simp only [clamp01, max_lt_iff, min_lt_iff]
  constructor
  · rintro ⟨h2, h3 | h4⟩
    · linarith
    · exact h4
  · intro h
    exact ⟨h0, Or.inr h⟩

/-- C7 amended: the decision core never fails on an out-of-range confidence
(both policies are total functions of an arbitrary rational score), and it
compares the raw, unclamped score — which coincides with clamp-then-compare
for every threshold in (0, 1], the range containing the defaults. -/
theorem policies_agree_with_clamped_confidence (s : Settings) (confidence : ℚ)
    (urgency : UrgencyLevel)
    (ha0 : 0 < s.auto_send_threshold) (ha1 : s.auto_send_threshold ≤ 1)
    (he0 : 0 < s.escalation_threshold) (he1 : s.escalation_threshold ≤ 1) :
    should_auto_send s confidence urgency
      = should_auto_send s (clamp01 confidence) urgency ∧
    should_escalate s confidence urgency
      = should_escalate s (clamp01 confidence) urgency := by
  constructor
  · cases urgency <;>
      simp [should_auto_send,
        le_clamp01_iff confidence s.auto_send_threshold ha0 ha1]
  · cases urgency <;>
      simp [should_escalate,
        clamp01_lt_iff confidence s.escalation_threshold he0 he1]

/-- C7 amended, witness: at the default thresholds the policies treat the
out-of-range score 2 exactly as its clamped value 1. -/
theorem policies_agree_with_clamped_confidence_witness :
    should_auto_send settings 2 .low = should_auto_send settings (clamp01 2) .low ∧
    should_escalate settings 2 .low = should_escalate settings (clamp01 2) .low :=
  policies_agree_with_clamped_confidence settings 2 .low
    (by norm_num [settings]) (by norm_num [settings])
    (by norm_num [settings]) (by norm_num [settings])

/-- C7 counterexample: the code does not clamp the confidence before the
policy comparison. With an auto-send threshold of 0 (a configuration inside
the documented [0, 1] range) and confidence -1/2, should_auto_send refuses,
while on the clamped confidence it would approve. -/
theorem confidence_not_clamped_counterexample :
    should_auto_send { settings with auto_send_threshold := 0 } (-(1/2)) .low = false ∧
    should_auto_send { settings with auto_send_threshold := 0 }
      (clamp01 (-(1/2))) .low = true := by
  have h1 : clamp01 (-(1/2 : ℚ)) = 0 := by
    unfold clamp01
    rw [min_eq_right (by norm_num), max_eq_left (by norm_num)]
  constructor
  · simp [should_auto_send]
  · rw [h1]
    simp [should_auto_send]

/-- C8: the escalate endpoint unconditionally appends " - ESCALATED" to the
rendered current team and marks the ticket escalated; a second call appends
the suffix again, so the operation is not idempotent — the team string of a
twice-escalated ticket carries the suffix twice and is 12 characters longer
than after one call. -/
theorem escalate_ticket_appends_suffix (t : Ticket) :
    (escalate_ticket t).status = .escalated ∧
    (escalate_ticket t).assigned_team =
      some (formatOptTeam t.assigned_team ++ " - ESCALATED") ∧
    (escalate_ticket (escalate_ticket t)).assigned_team =
      some (formatOptTeam t.assigned_team ++ " - ESCALATED" ++ " - ESCALATED") ∧
    ((escalate_ticket (escalate_ticket t)).assigned_team.getD "").length =
      ((escalate_ticket t).assigned_team.getD "").length + 12 := by
  refine ⟨rfl, rfl, rfl, ?_⟩
  simp [escalate_ticket, formatOptTeam, String.length_append]
  rfl

/-- A left fold whose step never increases the accumulator never exceeds its
initial value. -/
lemma foldl_le_init {α : Type} (f : ℚ → α → ℚ) (hf : ∀ c p, f c p ≤ c) :
    ∀ (l : List α) (init : ℚ), l.foldl f init ≤ init := by
  intro l
  induction l with
  | nil => intro init; simp
  | cons p l ih =>
    intro init
    rw [List.foldl_cons]
    exact le_trans (ih (f init p)) (hf init p)

/-- C10: the reply-confidence heuristic always lands in [0, 0.85]: it starts
at 0.85, only subtracts penalties, and clamps to [0, 1]; consequently the
effective confidence min(classification confidence, reply confidence) never
exceeds 0.85 either. -/
theorem reply_confidence_bounded (reply intent urgency : String) :
    0 ≤ _calculate_confidence reply intent urgency ∧
    _calculate_confidence reply intent urgency ≤ 85/100 ∧
    ∀ c : ℚ, min c (_calculate_confidence reply intent urgency) ≤ 85/100 := by
  have hmain : ∀ X : ℚ, X ≤ 85/100 →
      0 ≤ max 0 (min 1 X) ∧ max 0 (min 1 X) ≤ 85/100 ∧
      ∀ c : ℚ, min c (max 0 (min 1 X)) ≤ 85/100 := by
    intro X hX
    have h2 : max 0 (min 1 X) ≤ 85/100 :=
      max_le (by norm_num) (le_trans (min_le_right 1 X) hX)
    exact ⟨le_max_left 0 _, h2, fun c => le_trans (min_le_right c _) h2⟩
  have hc1 : (if reply.length < 50 then (85/100 : ℚ) - 2/10 else 85/100) ≤ 85/100 := by
    split_ifs <;> norm_num
  have hF : unsafe_phrases.foldl
      (fun c phrase => if containsPhrase reply phrase then c - 15/100 else c)
      (if reply.length < 50 then (85/100 : ℚ) - 2/10 else 85/100) ≤ 85/100 :=
    le_trans
      (foldl_le_init _
        (fun c p => by by_cases h : containsPhrase reply p <;> simp [h]; linarith)
        unsafe_phrases _)
      hc1
  have hX : (if urgency = "critical" then
      unsafe_phrases.foldl
        (fun c phrase => if containsPhrase reply phrase then c - 15/100 else c)
        (if reply.length < 50 then (85/100 : ℚ) - 2/10 else 85/100) - 1/10
    else
      unsafe_phrases.foldl
        (fun c phrase => if containsPhrase reply phrase then c - 15/100 else c)
        (if reply.length < 50 then (85/100 : ℚ) - 2/10 else 85/100)) ≤ 85/100 := by
    by_cases hu : urgency = "critical" <;> simp only [hu, if_true, if_false] <;> linarith
  simpa [_calculate_confidence] using hmain _ hX

/-- C9: in the ingestion pipeline no per-ticket exception propagates: the loop
body is total, every fetched email yields exactly one persisted row of the
committed batch, and any email whose classification or reply-generation step
raises is persisted with status ESCALATED while the rest of the batch is
still processed. -/
theorem ingest_failed_ticket_escalated (s : Settings)
    (classify : String → String → Except String ClassificationResult)
    (genReply : String → String → String → String → Except String ReplyResult)
    (tds : List TicketData) (td : TicketData) :
    (ingest_tickets s classify genReply tds).length = tds.length ∧
    (td ∈ tds →
      ingest_process_one s classify genReply td ∈ ingest_tickets s classify genReply tds) ∧
    (step_fails classify genReply td = true →
      (ingest_process_one s classify genReply td).status = .escalated) := by
  refine ⟨by simp [ingest_tickets], fun h => List.mem_map_of_mem _ h, fun hf => ?_⟩
  unfold step_fails at hf
  unfold ingest_process_one
  cases hc : classify td.subject td.body with
  | error e => rfl
  | ok c =>
    rw [hc] at hf
    dsimp only at hf ⊢
    cases hr : genReply td.subject td.body c.intent.value c.urgency.value with
    | error e => rfl
    | ok r =>
      rw [hr] at hf
      exact absurd hf (by simp [exceptFailed])

/-- C1 amended: for a ticket whose collaborator calls succeed, the ingestion
decision step stores the effective confidence min(classification confidence,
reply confidence), assigns the team route_ticket(intent, urgency), and marks
the ticket ESCALATED exactly when should_escalate fires on (effective
confidence, urgency, escalation threshold); no auto-send flag enters the
outcome — the result is independent of the configured auto-send threshold. -/
theorem ingest_decision_verdict (s : Settings)
    (classify : String → String → Except String ClassificationResult)
    (genReply : String → String → String → String → Except String ReplyResult)
    (td : TicketData) (c : ClassificationResult) (r : ReplyResult)
    (hc : classify td.subject td.body = .ok c)
    (hr : genReply td.subject td.body c.intent.value c.urgency.value = .ok r) :
    (ingest_process_one s classify genReply td).confidence_score
      = some (min c.confidence r.confidence) ∧
    (ingest_process_one s classify genReply td).assigned_team
      = some (route_ticket c.intent c.urgency) ∧
    ((ingest_process_one s classify genReply td).status = .escalated
      ↔ should_escalate s (min c.confidence r.confidence) c.urgency = true) ∧
    ∀ q : ℚ, ingest_process_one { s with auto_send_threshold := q } classify genReply td
      = ingest_process_one s classify genReply td := by
  unfold ingest_process_one
  rw [hc]
  dsimp only
  rw [hr]
  dsimp only
  refine ⟨?_, ?_, ?_, fun q => rfl⟩ <;>
    cases hb : should_escalate s (min c.confidence r.confidence) c.urgency <;>
    simp [hb]

/-- A concrete fetched email. -/
def td0 : TicketData :=
  { customer_email := "user@example.com", subject := "Billing question",
    body := "Please explain my invoice." }

/-- A concrete successful classification: billing, low urgency,
confidence 0.9. -/
def classification0 : ClassificationResult :=
  { intent := .billing, urgency := .low, confidence := 9/10 }

/-- A concrete successful reply with confidence 0.9. -/
def reply0 : ReplyResult :=
  { reply := "Thanks for reaching out about your invoice.", confidence := 9/10 }

/-- A classification collaborator that always succeeds with
`classification0`. -/
def classify0 : String → String → Except String ClassificationResult :=
  fun _ _ => .ok classification0

/-- A reply collaborator that always succeeds with `reply0`. -/
def genReply0 : String → String → String → String → Except String ReplyResult :=
  fun _ _ _ _ => .ok reply0

/-- C1 amended, witness: the decision outcome at a concrete successfully
processed ticket. -/
theorem ingest_decision_verdict_witness :
    (ingest_process_one settings classify0 genReply0 td0).confidence_score
      = some (min classification0.confidence reply0.confidence) ∧
    (ingest_process_one settings classify0 genReply0 td0).assigned_team
      = some (route_ticket classification0.intent classification0.urgency) ∧
    ((ingest_process_one settings classify0 genReply0 td0).status = .escalated
      ↔ should_escalate settings
          (min classification0.confidence reply0.confidence)
          classification0.urgency = true) ∧
    ∀ q : ℚ, ingest_process_one { settings with auto_send_threshold := q }
        classify0 genReply0 td0
      = ingest_process_one settings classify0 genReply0 td0 :=
  ingest_decision_verdict settings classify0 genReply0 td0
    classification0 reply0 rfl rfl

/-- The default configuration with the auto-send threshold raised to 0.95. -/
def settings_strict : Settings := { settings with auto_send_threshold := 19/20 }

/-- C1 counterexample: the ingestion decision step computes no auto-send flag.
For the same ticket (billing, low urgency, effective confidence 0.9) the
spec's Decision Engine verdict carries auto_send = true under the default
threshold 0.8 and auto_send = false under threshold 0.95, yet the code's
ingestion outcome is identical under both configurations — the auto-send
policy result is nowhere in the verdict the ingestion step produces, and
should_auto_send is never invoked by `ingest_tickets`. -/
theorem ingest_no_auto_send_counterexample :
    (decide_spec settings .billing .low (9/10) (9/10)).auto_send = true ∧
    (decide_spec settings_strict .billing .low (9/10) (9/10)).auto_send = false ∧
    ingest_process_one settings_strict classify0 genReply0 td0
      = ingest_process_one settings classify0 genReply0 td0 := by
  refine ⟨?_, ?_, rfl⟩
  · norm_num [decide_spec, should_auto_send, settings, min_self]
    decide
  · norm_num [decide_spec, should_auto_send, settings, settings_strict, min_self]

end SupportTriage
